import Mathlib

/-!
Verification of the LeapTime Manager core against its specification.

The development shallowly embeds the two source modules
`LeaptimeManager/scheduler.py` and `LeaptimeManager/rsync_backend.py`:

* Python strings are modelled as `List Char` (`PyStr`);
* Python `int(str)` is modelled by `pyInt` (surrounding whitespace, an
  optional sign, decimal digits with single underscores between digits);
* fallible Python code is modelled with `Except PyError`;
* external collaborators (wall clock, `datetime.strptime`, `os.path.abspath`,
  `os.path.exists`, the directory scanner and the database writer) are
  passed in as explicit parameters, since they are not part of the core;
* time is measured in whole minutes (`Int`), the granularity of every
  timestamp the scheduler handles; one hour is 60, one day 1440,
  one week 10080, thirty days 43200.
-/

/-- Python strings, modelled as lists of characters. -/
abbrev PyStr := List Char

/-- Literal helper: the Lean string literal as a `PyStr`. -/
def pystr (s : String) : PyStr := s.toList

/-- Whitespace characters stripped by Python `int()`. -/
def isWs (c : Char) : Bool :=
  c == ' ' || c == '\t' || c == '\n' || c == '\r' || c == '\x0b' || c == '\x0c'

/-- Strip leading and trailing whitespace, as Python `int()` does. -/
def pyStrip (s : PyStr) : PyStr :=
  ((s.dropWhile isWs).reverse.dropWhile isWs).reverse

/-- ASCII decimal digit test. -/
def isDigitCh (c : Char) : Bool := '0' ≤ c && c ≤ '9'

/-- Numeric value of an ASCII digit. -/
def digVal (c : Char) : Nat := c.toNat - 48

/-- Scan the remainder of a digit string: digits, with a single underscore
allowed between two digits (Python integer-literal syntax). Returns the
digits with underscores removed, or `none` if the shape is invalid. -/
def scanRest : List Char → Option (List Char)
  | [] => some []
  | c :: cs =>
    if c = '_' then
      match cs with
      | [] => none
      | c2 :: cs2 => if isDigitCh c2 then (scanRest cs2).map (fun ds => c2 :: ds) else none
    else if isDigitCh c then (scanRest cs).map (fun ds => c :: ds) else none

/-- Scan a nonempty digit string (first character must be a digit). -/
def scanDigits (s : List Char) : Option (List Char) :=
  match s with
  | [] => none
  | c :: cs => if isDigitCh c then (scanRest cs).map (fun ds => c :: ds) else none

/-- Value of a list of ASCII digits, most significant first. -/
def digitsVal (ds : List Char) : Nat := ds.foldl (fun a c => a * 10 + digVal c) 0

/-- The sign-and-digits part of Python `int(str)`, after whitespace
stripping. -/
def pyIntCore : List Char → Option Int
  | [] => none
  | c :: rest =>
    if c = '+' then (scanDigits rest).map (fun ds => (digitsVal ds : Int))
    else if c = '-' then (scanDigits rest).map (fun ds => -(digitsVal ds : Int))
    else (scanDigits (c :: rest)).map (fun ds => (digitsVal ds : Int))

/-- Model of Python `int(str)`: optional surrounding whitespace, optional
sign, then decimal digits with single underscores between digits.
`none` models the `ValueError` raised on any other shape.
(Non-ASCII digits are not modelled.) -/
def pyInt (s : PyStr) : Option Int := pyIntCore (pyStrip s)

/-- The ASCII digit character for a value below ten. -/
def digitCh : Nat → Char
  | 0 => '0'
  | 1 => '1'
  | 2 => '2'
  | 3 => '3'
  | 4 => '4'
  | 5 => '5'
  | 6 => '6'
  | 7 => '7'
  | 8 => '8'
  | 9 => '9'
  | _ => '*'

/-- Decimal digits of `n`, most significant first, with structural fuel
(`fuel > n` suffices). Models Python `str` of a nonnegative integer. -/
def natToDigitsAux : Nat → Nat → List Char
  | 0, _ => []
  | fuel + 1, n =>
    if n < 10 then [digitCh n]
    else natToDigitsAux fuel (n / 10) ++ [digitCh (n % 10)]

/-- Decimal digit string of a natural number. -/
def natToDigits (n : Nat) : List Char := natToDigitsAux (n + 1) n

/-- Model of Python `str(int)`. -/
def intRepr (v : Int) : PyStr :=
  if v < 0 then '-' :: natToDigits (-v).toNat else natToDigits v.toNat

/-! ## Scheduler (`LeaptimeManager/scheduler.py`, class `ScheduleManager`) -/

/-- Python exceptions relevant to this core: the `ValueError` raised by
`int()` inside `parse_interval`, and arbitrary exceptions raised by the
database writer, carrying their `str()` rendering. -/
inductive PyError where
  | valueError : PyError
  | other (msg : PyStr) : PyError
deriving DecidableEq

deriving instance DecidableEq for Except

/-- `str()` of a modelled exception. -/
def pyErrMsg : PyError → PyStr
  | .valueError => pystr "ValueError"
  | .other msg => msg

/-- The interval dictionaries produced and consumed by `ScheduleManager`:
either `{'type': t}` or `{'type': 'custom', 'value': v, 'unit': u}`.
Dictionaries missing keys are not representable (the module never builds
them, so the `.get` defaults in the source are unreachable). -/
inductive IntervalDict where
  | fixed (t : PyStr)
  | custom (value : Int) (unit : PyStr)
deriving DecidableEq

/-- The four fixed interval keywords. -/
def fourKinds : List PyStr :=
  [pystr "hourly", pystr "daily", pystr "weekly", pystr "monthly"]

/-- `ScheduleManager.parse_interval`. A `.error` value models an uncaught
Python exception escaping the call (the `int(parts[1])` at line 74 of
`scheduler.py` is not wrapped in any try/except). -/
def parse_interval (s : PyStr) : Except PyError (Option IntervalDict) :=
  if s = [] then .ok none
  else if (List.splitOn ':' s).headD [] ∈ fourKinds then
    .ok (some (.fixed ((List.splitOn ':' s).headD [])))
  else if (List.splitOn ':' s).headD [] = pystr "custom" ∧
      (List.splitOn ':' s).length = 3 then
    match pyInt ((List.splitOn ':' s).getD 1 []) with
    | some v => .ok (some (.custom v ((List.splitOn ':' s).getD 2 [])))
    | none => .error .valueError
  else .ok none

/-- `ScheduleManager.format_interval` (the `None`/falsy argument returns ""). -/
def format_interval : Option IntervalDict → PyStr
  | none => []
  | some (.fixed t) => if t ∈ fourKinds then t else []
  | some (.custom v u) => pystr "custom" ++ ':' :: intRepr v ++ ':' :: u

/-- The `last_run` argument of `get_next_run_time`: omitted, a datetime,
or a text timestamp. -/
inductive LastRunArg where
  | noArg : LastRunArg
  | dt (t : Int) : LastRunArg
  | text (s : PyStr) : LastRunArg
deriving DecidableEq

/-- `ScheduleManager.get_next_run_time`. `strp` models
`datetime.strptime(s, "%Y-%m-%d %H:%M")` (`none` = `ValueError`, which the
source catches); `now` models `datetime.now()`; times are in minutes. -/
def get_next_run_time (strp : PyStr → Option Int) (now : Int)
    (d : Option IntervalDict) (lastRun : LastRunArg) : Option Int :=
  match d with
  | none => none
  | some d =>
    let lr : Int :=
      match lastRun with
      | .noArg => now
      | .dt t => t
      | .text s => match strp s with | some t => t | none => now
    match d with
    | .fixed t =>
      if t = pystr "hourly" then some (lr + 60)
      else if t = pystr "daily" then some (lr + 1440)
      else if t = pystr "weekly" then some (lr + 10080)
      else if t = pystr "monthly" then some (lr + 43200)
      else none
    | .custom v u =>
      if u = pystr "hours" then some (lr + v * 60)
      else if u = pystr "days" then some (lr + v * 1440)
      else if u = pystr "weeks" then some (lr + v * 10080)
      else none

/-- `ScheduleManager.is_due`. The two `datetime.now()` reads inside one
call are modelled by the single value `now` (the clock is treated as
constant for the duration of the call). A `.error` value models the
`ValueError` propagating out of the inner `parse_interval` call. -/
def is_due (strp : PyStr → Option Int) (now : Int) (s : PyStr)
    (lastRun : LastRunArg) : Except PyError Bool :=
  match parse_interval s with
  | .error e => .error e
  | .ok none => .ok false
  | .ok (some d) =>
    match get_next_run_time strp now (some d) lastRun with
    | none => .ok false
    | some t => .ok (decide (t ≤ now))

/-- Spec-side: the fixed offset, in minutes, that each interval kind adds
(Hourly +1h, Daily +1d, Weekly +7d, Monthly +30d, Custom value×unit);
`none` for an unknown or corrupt spec. -/
def offsetMinutes : IntervalDict → Option Int
  | .fixed t =>
    if t = pystr "hourly" then some 60
    else if t = pystr "daily" then some 1440
    else if t = pystr "weekly" then some 10080
    else if t = pystr "monthly" then some 43200
    else none
  | .custom v u =>
    if u = pystr "hours" then some (v * 60)
    else if u = pystr "days" then some (v * 1440)
    else if u = pystr "weeks" then some (v * 10080)
    else none

/-- Spec-side: the base time the offset is added to — `lastRun` when it is
a valid timestamp, the current time when it is omitted or fails to parse. -/
def resolveLastRun (strp : PyStr → Option Int) (now : Int) : LastRunArg → Int
  | .noArg => now
  | .dt t => t
  | .text s => match strp s with | some t => t | none => now

/-- A valid `ScheduleSpec` in the sense of the specification: one of the
four fixed kinds, or Custom with a positive value and a known unit. -/
def validSpec : IntervalDict → Prop
  | .fixed t => t ∈ fourKinds
  | .custom v u => 0 < v ∧ u ∈ [pystr "hours", pystr "days", pystr "weeks"]

instance validSpec_decidable (d : IntervalDict) : Decidable (validSpec d) :=
  match d with
  | .fixed t => inferInstanceAs (Decidable (t ∈ fourKinds))
  | .custom v u =>
    inferInstanceAs (Decidable (0 < v ∧ u ∈ [pystr "hours", pystr "days", pystr "weeks"]))

/-! ## Rsync backend (`LeaptimeManager/rsync_backend.py`, class `rsync_backend`) -/

/-- Python `s.rstrip('/')`: drop every trailing slash. -/
def pyRstripSlash (s : PyStr) : PyStr :=
  (s.reverse.dropWhile (fun c => c == '/')).reverse

/-- The directory normalization `idir.rstrip('/') + '/'`: exactly one
trailing slash. -/
def normDir (s : PyStr) : PyStr := pyRstripSlash s ++ ['/']

/-- `pathlib.Path(s).parts` for POSIX paths: the nonempty, non-`"."`
components, preceded by a root component for absolute paths.
(The POSIX double-slash-root special case is not modelled.) -/
def pathParts (s : PyStr) : List PyStr :=
  let comps := (List.splitOn '/' s).filter (fun c => !(c == []) && !(c == ['.']))
  if s.head? = some '/' then pystr "/" :: comps else comps

/-- `os.path.join(a, b)` for POSIX paths. -/
def osJoin2 (a b : PyStr) : PyStr :=
  if b.head? = some '/' then b
  else if a = [] ∨ a.getLast? = some '/' then a ++ b
  else a ++ '/' :: b

/-- `os.path.join(*parts)` over a nonempty list of components. -/
def osJoin : List PyStr → PyStr
  | [] => []
  | p :: rest => rest.foldl osJoin2 p

/-- The `'--include'` literal. -/
def incFlag : PyStr := pystr "--include"

/-- The `'--exclude'` literal. -/
def excFlag : PyStr := pystr "--exclude"

/-- State threaded through `build_rsync_patterns`: the `patterns` list and
the `seen_dirs` set (modelled as a list queried by membership). -/
structure BuildSt where
  patterns : List PyStr
  seen : List PyStr
deriving DecidableEq

/-- The ancestor path prefix used at step `i` of `add_parents`:
`os.path.join(*parts[:i]) + '/'`. -/
def parentAt (parts : List PyStr) (i : Nat) : PyStr :=
  osJoin (parts.take i) ++ ['/']

/-- One iteration of the `for i in range(1, len(parts))` loop in
`add_parents`: emit the ancestor include pattern unless already seen. -/
def addParentsStep (parts : List PyStr) (st : BuildSt) (i : Nat) : BuildSt :=
  let parent := parentAt parts i
  if parent ∈ st.seen then st
  else { patterns := st.patterns ++ [incFlag, parent], seen := parent :: st.seen }

/-- The nested helper `add_parents(path)` of `build_rsync_patterns`. -/
def addParents (path : PyStr) (st : BuildSt) : BuildSt :=
  let parts := pathParts path
  (List.range' 1 (parts.length - 1)).foldl (addParentsStep parts) st

/-- One iteration of the `for idir in included_dirs` loop. -/
def dirStep (st : BuildSt) (idir0 : PyStr) : BuildSt :=
  let idir := normDir idir0
  let st1 := addParents idir st
  if idir ∈ st1.seen then st1
  else { patterns := st1.patterns ++ [incFlag, idir], seen := idir :: st1.seen }

/-- One iteration of the `for ifile in included_files` loop (the file
itself is emitted unconditionally and not added to the seen set). -/
def fileStep (st : BuildSt) (f : PyStr) : BuildSt :=
  let st1 := addParents f st
  { patterns := st1.patterns ++ [incFlag, f], seen := st1.seen }

/-- `rsync_backend.build_rsync_patterns`. -/
def build_rsync_patterns (included_files included_dirs excluded_files excluded_dirs :
    List PyStr) : List PyStr :=
  let st0 : BuildSt := { patterns := [], seen := [] }
  let st1 := included_dirs.foldl dirStep st0
  let st2 := included_files.foldl fileStep st1
  let p3 := excluded_dirs.foldl (fun ps edir => ps ++ [excFlag, normDir edir]) st2.patterns
  let p4 := excluded_files.foldl (fun ps efile => ps ++ [excFlag, efile]) p3
  if included_files ≠ [] ∨ included_dirs ≠ [] then p4 ++ [excFlag, pystr "*"] else p4

/-- Spec-side: the include rules emitted for the included directories,
starting from an incoming seen set and an empty pattern list. -/
def includeDirSection (dirs : List PyStr) (seen : List PyStr) : BuildSt :=
  dirs.foldl dirStep { patterns := [], seen := seen }

/-- Spec-side: the include rules emitted for the included files, starting
from an incoming seen set and an empty pattern list. -/
def includeFileSection (files : List PyStr) (seen : List PyStr) : BuildSt :=
  files.foldl fileStep { patterns := [], seen := seen }

/-- Spec-side: one exclude rule per excluded directory, normalized to one
trailing slash. -/
def excludeDirSection (dirs : List PyStr) : List PyStr :=
  dirs.foldl (fun ps d => ps ++ [excFlag, normDir d]) []

/-- Spec-side: one exclude rule per excluded file. -/
def excludeFileSection (files : List PyStr) : List PyStr :=
  files.foldl (fun ps f => ps ++ [excFlag, f]) []

/-- Spec-side: the final catch-all exclude, present iff at least one
include list is nonempty. -/
def catchAllSection (included_files included_dirs : List PyStr) : List PyStr :=
  if included_files ≠ [] ∨ included_dirs ≠ [] then [excFlag, pystr "*"] else []

/-- The fixed flag prefix of every rsync command built by the backend. -/
def baseRsyncFlags : List PyStr :=
  [pystr "rsync", pystr "--archive", pystr "--acls", pystr "--xattrs",
   pystr "--hard-links", pystr "--times", pystr "--atimes", pystr "--checksum",
   pystr "--compress", pystr "--partial"]

/-- `if not source_dir.endswith('/'): source_dir += '/'`. -/
def ensureTrailingSlash (s : PyStr) : PyStr :=
  if s.getLast? = some '/' then s else s ++ ['/']

/-- `rsync_backend.generate_rsync_command`. `abspath` models
`os.path.abspath` (it depends on the process working directory, so it is a
parameter). -/
def generate_rsync_command (abspath : PyStr → PyStr) (source_dir dest_dir : PyStr)
    (included_files included_dirs excluded_files excluded_dirs : List PyStr)
    (dry_run show_progress delete_extra : Bool) : List PyStr :=
  let cmd1 := baseRsyncFlags ++ (if dry_run then [pystr "--dry-run"] else [])
  let cmd2 := cmd1 ++ (if show_progress then [pystr "--progress"] else [])
  let cmd3 := cmd2 ++ (if delete_extra then [pystr "--delete"] else [])
  let cmd4 := cmd3 ++ build_rsync_patterns included_files included_dirs
    excluded_files excluded_dirs
  cmd4 ++ [ensureTrailingSlash (abspath source_dir), abspath dest_dir]

/-- The environment a `prep_*` call draws on: the random uuid, the
timestamp taken from the clock, `DATA_LOG_DIR`, `os.path.abspath`,
`os.path.exists`, and the result triple of the external
`UserData_backend.scan_dirs` collaborator. -/
structure PrepEnv where
  uuid : PyStr
  timestamp : PyStr
  dataLogDir : PyStr
  abspath : PyStr → PyStr
  pathExists : PyStr → Bool
  scanFiles : List PyStr
  scanNum : Int
  scanSize : Int

/-- The instance fields a `prep_*` call sets on the backend object that
are read again by `finish_rsync_backup` (fields used only for logging are
included for completeness; purely cosmetic ones are omitted). -/
structure RBState where
  repeatFlag : Bool
  uuid : PyStr
  backup_name : PyStr
  source_dir : PyStr
  dest_dir : PyStr
  excluded_files : List PyStr
  excluded_dirs : List PyStr
  included_files : List PyStr
  included_dirs : List PyStr
  timestamp : PyStr
  backup_logfile : PyStr
  operating : Bool
  num_files : Int
  total_size : Int
  copy_files : List PyStr
deriving DecidableEq

/-- The dictionary returned by `prep_rsync_backup` / `prep_sync_backup`. -/
structure BackupPlan where
  cmd : List PyStr
  logfile : PyStr
  uuid : PyStr
  timestamp : PyStr
  source : PyStr
  destination : PyStr
  name : PyStr
deriving DecidableEq

/-- The dictionary returned by `prep_incremental_backup` (two extra keys). -/
structure IncBackupPlan where
  cmd : List PyStr
  logfile : PyStr
  uuid : PyStr
  timestamp : PyStr
  source : PyStr
  destination : PyStr
  name : PyStr
  mode : PyStr
  parent_backup : Option PyStr
deriving DecidableEq

/-- The log file path
`os.path.join(DATA_LOG_DIR, name, f"{name}_{timestamp}.log")`. -/
def logfilePath (env : PrepEnv) (backup_name : PyStr) : PyStr :=
  osJoin2 (osJoin2 env.dataLogDir backup_name)
    (backup_name ++ '_' :: env.timestamp ++ pystr ".log")

/-- `rsync_backend.prep_rsync_backup` (the `mkdir` side effect has no
observable result in the plan and is not modelled). -/
def prep_rsync_backup (env : PrepEnv) (backup_name source_dir dest_dir : PyStr)
    (excluded_files excluded_dirs included_files included_dirs : List PyStr)
    (dry_run show_progress delete_extra repeatArg : Bool) : RBState × BackupPlan :=
  let st : RBState :=
    { repeatFlag := repeatArg
      uuid := env.uuid
      backup_name := backup_name
      source_dir := source_dir
      dest_dir := dest_dir
      excluded_files := excluded_files
      excluded_dirs := excluded_dirs
      included_files := included_files
      included_dirs := included_dirs
      timestamp := env.timestamp
      backup_logfile := logfilePath env backup_name
      operating := true
      num_files := env.scanNum
      total_size := env.scanSize
      copy_files := env.scanFiles }
  (st,
    { cmd := generate_rsync_command env.abspath source_dir dest_dir
        included_files included_dirs excluded_files excluded_dirs
        dry_run show_progress delete_extra
      logfile := st.backup_logfile
      uuid := env.uuid
      timestamp := env.timestamp
      source := source_dir
      destination := dest_dir
      name := backup_name })

/-- `rsync_backend.prep_sync_backup`: delegates to `prep_rsync_backup`
with `delete_extra=True`. -/
def prep_sync_backup (env : PrepEnv) (backup_name source_dir dest_dir : PyStr)
    (excluded_files excluded_dirs included_files included_dirs : List PyStr)
    (dry_run show_progress repeatArg : Bool) : RBState × BackupPlan :=
  prep_rsync_backup env backup_name source_dir dest_dir
    excluded_files excluded_dirs included_files included_dirs
    dry_run show_progress true repeatArg

/-- The timestamped incremental destination
`os.path.join(dest_dir, f"{name}_{timestamp}")`. -/
def incDest (base name ts : PyStr) : PyStr := osJoin2 base (name ++ '_' :: ts)

/-- `rsync_backend.prep_incremental_backup`. The link-dest condition is
the source's `if previous_backup_dest and os.path.exists(previous_backup_dest)`:
the argument must be supplied, truthy (nonempty) and exist on disk. -/
def prep_incremental_backup (env : PrepEnv) (backup_name source_dir dest_dir : PyStr)
    (excluded_files excluded_dirs included_files included_dirs : List PyStr)
    (previous_backup_dest : Option PyStr)
    (dry_run show_progress repeatArg : Bool) : RBState × IncBackupPlan :=
  let inc_dest := incDest dest_dir backup_name env.timestamp
  let st : RBState :=
    { repeatFlag := repeatArg
      uuid := env.uuid
      backup_name := backup_name
      source_dir := source_dir
      dest_dir := inc_dest
      excluded_files := excluded_files
      excluded_dirs := excluded_dirs
      included_files := included_files
      included_dirs := included_dirs
      timestamp := env.timestamp
      backup_logfile := logfilePath env backup_name
      operating := true
      num_files := env.scanNum
      total_size := env.scanSize
      copy_files := env.scanFiles }
  let cmd1 := baseRsyncFlags ++ (if dry_run then [pystr "--dry-run"] else [])
  let cmd2 := cmd1 ++ (if show_progress then [pystr "--progress"] else [])
  let linkSeg : List PyStr :=
    match previous_backup_dest with
    | some p => if p ≠ [] ∧ env.pathExists p then [pystr "--link-dest", env.abspath p] else []
    | none => []
  let cmd3 := cmd2 ++ linkSeg ++ build_rsync_patterns included_files included_dirs
    excluded_files excluded_dirs
  let cmd := cmd3 ++ [ensureTrailingSlash (env.abspath source_dir), inc_dest]
  (st,
    { cmd := cmd
      logfile := st.backup_logfile
      uuid := env.uuid
      timestamp := env.timestamp
      source := source_dir
      destination := inc_dest
      name := backup_name
      mode := pystr "incremental"
      parent_backup := previous_backup_dest })

/-- An entry of the accumulated error list: the source appends two-element
lists `[message, None]`, modelled as a pair whose second component is the
always-`None` detail slot. -/
abbrev ErrEntry := PyStr × Option PyStr

/-- The history record dictionary assembled by `finish_rsync_backup`.
The `parent_backup` key is present (`some`) only for a truthy parent in
incremental mode. -/
structure BackupRecord where
  uuid : PyStr
  name : PyStr
  method : PyStr
  mode : PyStr
  source : PyStr
  destination : PyStr
  created : PyStr
  repeatFlag : Bool
  comment : PyStr
  excludeLists : List PyStr × List PyStr
  includeLists : List PyStr × List PyStr
  logfile : PyStr
  count : Int
  size : Int
  parent_backup : Option PyStr
deriving DecidableEq

/-- The record built inside `finish_rsync_backup` from the prepared state
and the finish arguments. -/
def finishRecord (st : RBState) (desc backup_method backup_mode : PyStr)
    (parent_backup : Option PyStr) : BackupRecord :=
  { uuid := st.uuid
    name := st.backup_name
    method := backup_method
    mode := backup_mode
    source := st.source_dir
    destination := st.dest_dir
    created := st.timestamp
    repeatFlag := st.repeatFlag
    comment := desc
    excludeLists := (st.excluded_dirs, st.excluded_files)
    includeLists := (st.included_dirs, st.included_files)
    logfile := st.backup_logfile
    count := st.num_files
    size := st.total_size
    parent_backup :=
      match parent_backup with
      | some p => if backup_mode = pystr "incremental" ∧ p ≠ [] then some p else none
      | none => none }

/-- The shortfall warning text, with both counts rendered into the
message template. -/
def shortfallWarning (archived total : Int) : PyStr :=
  pystr "Warning: Some files were not saved. Only " ++ intRepr archived
    ++ pystr " files were backed up out of " ++ intRepr total ++ pystr "."

/-- What a call to `finish_rsync_backup` leaves behind: the error list,
the in-memory history list, and the list handed to `write_db` (`none` if
the write raised). -/
structure FinishOutcome where
  errors : List ErrEntry
  db_list : List BackupRecord
  written : Option (List BackupRecord)
deriving DecidableEq

/-- `rsync_backend.finish_rsync_backup`. `writeResult` models the external
`db_manager.write_db` collaborator (`some e` = it raised `e`); `errors0`
and `db0` are the `self.errors` and `self.data_db_list` lists;
`archived_files` is the count set by the execution collaborator before the
call. The record is appended to the in-memory list before the write, so it
survives a write failure; the inner `except` turns a write failure into an
appended error entry; the shortfall check then runs unconditionally. The
outer `except` only prints, so the call never raises (given that
`archived_files` has been set, every expression it guards is total). -/
def finish_rsync_backup (writeResult : Option PyError) (st : RBState)
    (archived_files : Int) (errors0 : List ErrEntry) (db0 : List BackupRecord)
    (desc backup_method backup_mode : PyStr) (parent_backup : Option PyStr) :
    FinishOutcome :=
  let record := finishRecord st desc backup_method backup_mode parent_backup
  let db1 := db0 ++ [record]
  let persistOutcome : List ErrEntry × Option (List BackupRecord) :=
    match writeResult with
    | none => ([], some db1)
    | some e => ([(pyErrMsg e, none)], none)
  let errs2 : List ErrEntry :=
    if archived_files < st.num_files
    then [(shortfallWarning archived_files st.num_files, none)] else []
  { errors := errors0 ++ persistOutcome.1 ++ errs2
    db_list := db1
    written := persistOutcome.2 }

/-- Spec-side: the flag part of a command before the optional
delete-extraneous flag. -/
def cmdFront (dry_run show_progress : Bool) : List PyStr :=
  baseRsyncFlags ++ (if dry_run then [pystr "--dry-run"] else [])
    ++ (if show_progress then [pystr "--progress"] else [])

/-- Spec-side: the part of a plain-mode command after the optional
delete-extraneous flag. -/
def cmdBack (abspath : PyStr → PyStr) (source_dir dest_dir : PyStr)
    (included_files included_dirs excluded_files excluded_dirs : List PyStr) :
    List PyStr :=
  build_rsync_patterns included_files included_dirs excluded_files excluded_dirs
    ++ [ensureTrailingSlash (abspath source_dir), abspath dest_dir]

/-- Spec-side: the part of an incremental command after the optional
link-dest segment. -/
def incCmdBack (env : PrepEnv) (backup_name source_dir dest_dir : PyStr)
    (included_files included_dirs excluded_files excluded_dirs : List PyStr) :
    List PyStr :=
  build_rsync_patterns included_files included_dirs excluded_files excluded_dirs
    ++ [ensureTrailingSlash (env.abspath source_dir),
        incDest dest_dir backup_name env.timestamp]

/-- A concrete environment used to instantiate theorems that carry
hypotheses: identity `abspath`, nothing exists on disk. -/
def sampleEnv : PrepEnv :=
  { uuid := pystr "abc123xy"
    timestamp := pystr "2026-01-02_03-04"
    dataLogDir := pystr "/var/log/leaptime"
    abspath := fun p => p
    pathExists := fun _ => false
    scanFiles := []
    scanNum := 10
    scanSize := 1000 }

/-- A concrete prepared state used to instantiate theorems that carry
hypotheses: ten files counted by the pre-flight scan. -/
def sampleState : RBState :=
  { repeatFlag := false
    uuid := pystr "abc123xy"
    backup_name := pystr "b"
    source_dir := pystr "/s"
    dest_dir := pystr "/d"
    excluded_files := []
    excluded_dirs := []
    included_files := []
    included_dirs := []
    timestamp := pystr "2026-01-02_03-04"
    backup_logfile := pystr "/var/log/leaptime/b/b_2026-01-02_03-04.log"
    operating := true
    num_files := 10
    total_size := 1000
    copy_files := [] }

/-! ## Lemmas about digits and Python `int()` -/

theorem digitCh_isDigit : ∀ d : Nat, d < 10 → isDigitCh (digitCh d) = true := by
  decide

theorem digVal_digitCh : ∀ d : Nat, d < 10 → digVal (digitCh d) = d := by
  decide

theorem natToDigitsAux_digits :
    ∀ fuel n, n < fuel → ∀ c ∈ natToDigitsAux fuel n, isDigitCh c = true := by
  intro fuel
  induction fuel with
  | zero => intro n h; omega
  | succ fuel ih =>
    intro n h c hc
    simp only [natToDigitsAux] at hc
    by_cases h10 : n < 10
    · rw [if_pos h10] at hc
      simp only [List.mem_singleton] at hc
      subst hc
      exact digitCh_isDigit n h10
    · rw [if_neg h10] at hc
      rcases List.mem_append.mp hc with h1 | h2
      · exact ih (n / 10) (by omega) c h1
      · simp only [List.mem_singleton] at h2
        subst h2
        exact digitCh_isDigit (n % 10) (Nat.mod_lt n (by omega))

theorem digitsVal_append (ds : List Char) (c : Char) :
    digitsVal (ds ++ [c]) = digitsVal ds * 10 + digVal c := by
  simp [digitsVal, List.foldl_append]

theorem natToDigitsAux_val : ∀ fuel n, n < fuel →
    digitsVal (natToDigitsAux fuel n) = n := by
  intro fuel
  induction fuel with
  | zero => intro n h; omega
  | succ fuel ih =>
    intro n h
    simp only [natToDigitsAux]
    by_cases h10 : n < 10
    · rw [if_pos h10]
      have : digVal (digitCh n) = n := digVal_digitCh n h10
      simp [digitsVal, this]
    · rw [if_neg h10, digitsVal_append, ih (n / 10) (by omega),
          digVal_digitCh (n % 10) (Nat.mod_lt n (by omega))]
      omega

theorem natToDigitsAux_ne_nil : ∀ fuel n, n < fuel → natToDigitsAux fuel n ≠ [] := by
  intro fuel
  induction fuel with
  | zero => intro n h; omega
  | succ fuel ih =>
    intro n h
    simp only [natToDigitsAux]
    by_cases h10 : n < 10
    · rw [if_pos h10]; simp
    · rw [if_neg h10]; simp

theorem natToDigits_digits (n : Nat) : ∀ c ∈ natToDigits n, isDigitCh c = true :=
  natToDigitsAux_digits (n + 1) n (Nat.lt_succ_self n)

theorem natToDigits_val (n : Nat) : digitsVal (natToDigits n) = n :=
  natToDigitsAux_val (n + 1) n (Nat.lt_succ_self n)

theorem natToDigits_ne_nil (n : Nat) : natToDigits n ≠ [] :=
  natToDigitsAux_ne_nil (n + 1) n (Nat.lt_succ_self n)

theorem not_ws_of_digit {c : Char} (h : isDigitCh c = true) : isWs c = false := by
  have e1 : (c == ' ') = false := by
    rw [beq_eq_false_iff_ne]; intro he; subst he; exact absurd h (by decide)
  have e2 : (c == '\t') = false := by
    rw [beq_eq_false_iff_ne]; intro he; subst he; exact absurd h (by decide)
  have e3 : (c == '\n') = false := by
    rw [beq_eq_false_iff_ne]; intro he; subst he; exact absurd h (by decide)
  have e4 : (c == '\r') = false := by
    rw [beq_eq_false_iff_ne]; intro he; subst he; exact absurd h (by decide)
  have e5 : (c == '\x0b') = false := by
    rw [beq_eq_false_iff_ne]; intro he; subst he; exact absurd h (by decide)
  have e6 : (c == '\x0c') = false := by
    rw [beq_eq_false_iff_ne]; intro he; subst he; exact absurd h (by decide)
  simp [isWs, e1, e2, e3, e4, e5, e6]

theorem dropWhile_eq_self_of (p : Char → Bool) (s : List Char)
    (h : ∀ c ∈ s, p c = false) : s.dropWhile p = s := by
  cases s with
  | nil => rfl
  | cons c cs =>
    rw [List.dropWhile_cons, if_neg]
    rw [h c (List.mem_cons_self c cs)]
    simp

theorem pyStrip_of_digits (s : PyStr) (h : ∀ c ∈ s, isDigitCh c = true) :
    pyStrip s = s := by
  unfold pyStrip
  rw [dropWhile_eq_self_of _ _ (fun c hc => not_ws_of_digit (h c hc)),
      dropWhile_eq_self_of _ _
        (fun c hc => not_ws_of_digit (h c (List.mem_reverse.mp hc))),
      List.reverse_reverse]

theorem scanRest_of_digits :
    ∀ ds : List Char, (∀ c ∈ ds, isDigitCh c = true) → scanRest ds = some ds := by
  intro ds
  induction ds with
  | nil => intro _; rfl
  | cons c cs ih =>
    intro h
    have hc : isDigitCh c = true := h c (List.mem_cons_self c cs)
    have hne : ¬(c = '_') := by
      intro he; subst he; exact absurd hc (by decide)
    unfold scanRest
    rw [if_neg hne, if_pos hc, ih (fun x hx => h x (List.mem_cons_of_mem c hx))]
    rfl

theorem scanDigits_of_digits (c : Char) (cs : List Char)
    (h : ∀ x ∈ c :: cs, isDigitCh x = true) : scanDigits (c :: cs) = some (c :: cs) := by
  simp only [scanDigits]
  rw [if_pos (h c (List.mem_cons_self c cs)),
      scanRest_of_digits cs (fun x hx => h x (List.mem_cons_of_mem c hx))]
  rfl

theorem pyInt_of_digits (s : PyStr) (hne : s ≠ [])
    (h : ∀ c ∈ s, isDigitCh c = true) : pyInt s = some ((digitsVal s : Nat) : Int) := by
  unfold pyInt
  rw [pyStrip_of_digits s h]
  cases s with
  | nil => exact absurd rfl hne
  | cons c cs =>
    have hc : isDigitCh c = true := h c (List.mem_cons_self c cs)
    have h1 : ¬(c = '+') := by intro he; subst he; exact absurd hc (by decide)
    have h2 : ¬(c = '-') := by intro he; subst he; exact absurd hc (by decide)
    simp only [pyIntCore]
    rw [if_neg h1, if_neg h2, scanDigits_of_digits c cs h]
    rfl

theorem pyInt_natToDigits (n : Nat) : pyInt (natToDigits n) = some (n : Int) := by
  rw [pyInt_of_digits (natToDigits n) (natToDigits_ne_nil n) (natToDigits_digits n),
      natToDigits_val n]

theorem not_colon_of_digit {x : Char} (h : isDigitCh x = true) : (x == ':') = false := by
  rw [beq_eq_false_iff_ne]; intro he; subst he; exact absurd h (by decide)

/-! ## Lemmas about splitting on a separator -/

theorem splitOn_colon_three (a b c : PyStr)
    (ha : ∀ x ∈ a, (x == ':') = false) (hb : ∀ x ∈ b, (x == ':') = false)
    (hc : ∀ x ∈ c, (x == ':') = false) :
    List.splitOn ':' (a ++ ':' :: (b ++ ':' :: c)) = [a, b, c] := by
  unfold List.splitOn
  rw [List.splitOnP_first _ _ (fun x hx => by rw [ha x hx]; simp) ':' (by simp) _,
      List.splitOnP_first _ _ (fun x hx => by rw [hb x hx]; simp) ':' (by simp) _,
      List.splitOnP_eq_single _ _ (fun x hx => by rw [hc x hx]; simp)]

/-! ## Scheduler claims -/

/-- C2: for every valid ScheduleSpec (one of the four fixed kinds, or
Custom with a positive value and a unit in hours/days/weeks), serializing
with `format_interval` and parsing back with `parse_interval` returns the
spec unchanged. -/
theorem parse_format_roundtrip (d : IntervalDict) (h : validSpec d) :
    parse_interval (format_interval (some d)) = .ok (some d) := by
  cases d with
  | fixed t =>
    have hmem : t ∈ fourKinds := h
    fin_cases hmem <;> decide
  | custom v u =>
    obtain ⟨hv, hu⟩ := h
    have hvn : ¬(v < 0) := by omega
    have hrep : intRepr v = natToDigits v.toNat := by rw [intRepr, if_neg hvn]
    have hdig : ∀ x ∈ intRepr v, isDigitCh x = true := by
      rw [hrep]; exact natToDigits_digits v.toNat
    have hfmt : format_interval (some (.custom v u)) =
        pystr "custom" ++ ':' :: (intRepr v ++ ':' :: u) := by
      simp [format_interval]
    have hsplit : List.splitOn ':' (pystr "custom" ++ ':' :: (intRepr v ++ ':' :: u)) =
        [pystr "custom", intRepr v, u] := by
      refine splitOn_colon_three _ _ _ (by decide)
        (fun x hx => not_colon_of_digit (hdig x hx)) ?_
      fin_cases hu <;> decide
    have hne : pystr "custom" ++ ':' :: (intRepr v ++ ':' :: u) ≠ [] := by
      have hcl : pystr "custom" = 'c' :: pystr "ustom" := rfl
      rw [hcl]
      simp
    rw [hfmt]
    unfold parse_interval
    rw [if_neg hne, hsplit, List.headD_cons]
    rw [if_neg (by decide : ¬(pystr "custom" ∈ fourKinds)), if_pos ⟨rfl, rfl⟩]
    have hgd : [pystr "custom", intRepr v, u].getD 1 [] = intRepr v := rfl
    rw [hgd, hrep, pyInt_natToDigits]
    have hvv : ((v.toNat : Nat) : Int) = v := Int.toNat_of_nonneg (le_of_lt hv)
    rw [hvv]
    rfl

/-- Witness for C2 at the concrete spec Custom 2 weeks. -/
theorem parse_format_roundtrip_witness :
    validSpec (.custom 2 (pystr "weeks")) ∧
      parse_interval (format_interval (some (.custom 2 (pystr "weeks")))) =
        .ok (some (.custom 2 (pystr "weeks"))) :=
  ⟨by decide, parse_format_roundtrip (.custom 2 (pystr "weeks")) (by decide)⟩

/-- C3 counterexample: `parse_interval("custom:abc:days")` does not return
null — the uncaught `int("abc")` raises `ValueError`. -/
theorem parse_interval_raises_on_bad_custom :
    parse_interval (pystr "custom:abc:days") = .error .valueError := by decide

/-- C3 (amended): `parse_interval` raises exactly when the first
colon-token is `custom`, there are exactly three tokens, and the middle
token is not an integer literal; every other malformed input (empty
string, unknown first token, wrong number of custom tokens) yields null
without raising. -/
theorem parse_interval_error_characterization :
    (∀ s : PyStr, parse_interval s = .error .valueError ↔
      ((List.splitOn ':' s).headD [] = pystr "custom" ∧
        (List.splitOn ':' s).length = 3 ∧
        pyInt ((List.splitOn ':' s).getD 1 []) = none)) ∧
    parse_interval [] = .ok none ∧
    parse_interval (pystr "bogus") = .ok none ∧
    parse_interval (pystr "custom:5") = .ok none ∧
    parse_interval (pystr "custom:5:d:x") = .ok none := by
  refine ⟨?_, by decide, by decide, by decide, by decide⟩
  intro s
  by_cases hs : s = []
  · subst hs; decide
  · unfold parse_interval
    rw [if_neg hs]
    by_cases h4 : ((List.splitOn ':' s).headD []) ∈ fourKinds
    · rw [if_pos h4]
      constructor
      · intro he; exact Except.noConfusion he
      · rintro ⟨hcu, -, -⟩
        rw [hcu] at h4
        exact absurd h4 (by decide)
    · rw [if_neg h4]
      by_cases hc : ((List.splitOn ':' s).headD []) = pystr "custom" ∧
          (List.splitOn ':' s).length = 3
      · rw [if_pos hc]
        cases hpi : pyInt ((List.splitOn ':' s).getD 1 []) with
        | some v =>
          constructor
          · intro he; exact Except.noConfusion he
          · rintro ⟨-, -, hnone⟩
            exact Option.noConfusion hnone
        | none =>
          constructor
          · intro _; exact ⟨hc.1, hc.2, rfl⟩
          · intro _; rfl
      · rw [if_neg hc]
        constructor
        · intro he; exact Except.noConfusion he
        · rintro ⟨h1, h2, -⟩
          exact absurd ⟨h1, h2⟩ hc

/-- C10: any input whose first colon-token is one of the four fixed
keywords parses to that fixed kind, whatever follows. -/
theorem parse_interval_fixed_ignores_tail (s : PyStr) (t : PyStr)
    (ht : (List.splitOn ':' s).headD [] = t) (hmem : t ∈ fourKinds) :
    parse_interval s = .ok (some (.fixed t)) := by
  subst ht
  have hs : s ≠ [] := by
    intro he
    subst he
    exact absurd hmem (by decide)
  unfold parse_interval
  rw [if_neg hs, if_pos hmem]

/-- Witness for C10 at "daily:5:junk". -/
theorem parse_interval_fixed_ignores_tail_witness :
    (List.splitOn ':' (pystr "daily:5:junk")).headD [] = pystr "daily" ∧
      pystr "daily" ∈ fourKinds ∧
      parse_interval (pystr "daily:5:junk") = .ok (some (.fixed (pystr "daily"))) :=
  ⟨by decide, by decide,
    parse_interval_fixed_ignores_tail (pystr "daily:5:junk") (pystr "daily")
      (by decide) (by decide)⟩

/-! ## Filter rule builder claims -/

theorem foldl_patterns_factor {α : Type} (f : BuildSt → α → BuildSt)
    (hf : ∀ st x, f st x =
      { patterns := st.patterns ++ (f { patterns := [], seen := st.seen } x).patterns
        seen := (f { patterns := [], seen := st.seen } x).seen }) :
    ∀ (l : List α) (st : BuildSt),
      l.foldl f st =
        { patterns := st.patterns ++ (l.foldl f { patterns := [], seen := st.seen }).patterns
          seen := (l.foldl f { patterns := [], seen := st.seen }).seen } := by
  intro l
  induction l with
  | nil => intro st; simp
  | cons x xs ih =>
    intro st
    simp only [List.foldl_cons]
    rw [ih (f st x), ih (f { patterns := [], seen := st.seen } x)]
    rw [hf st x]
    simp [List.append_assoc]

theorem addParentsStep_factor (parts : List PyStr) (st : BuildSt) (i : Nat) :
    addParentsStep parts st i =
      { patterns := st.patterns
          ++ (addParentsStep parts { patterns := [], seen := st.seen } i).patterns
        seen := (addParentsStep parts { patterns := [], seen := st.seen } i).seen } := by
  unfold addParentsStep
  by_cases h : parentAt parts i ∈ st.seen <;> simp [h]

theorem addParents_factor (path : PyStr) (st : BuildSt) :
    addParents path st =
      { patterns := st.patterns ++ (addParents path { patterns := [], seen := st.seen }).patterns
        seen := (addParents path { patterns := [], seen := st.seen }).seen } := by
  unfold addParents
  exact foldl_patterns_factor (addParentsStep (pathParts path))
    (addParentsStep_factor (pathParts path)) _ st

theorem dirStep_factor (st : BuildSt) (d : PyStr) :
    dirStep st d =
      { patterns := st.patterns ++ (dirStep { patterns := [], seen := st.seen } d).patterns
        seen := (dirStep { patterns := [], seen := st.seen } d).seen } := by
  simp only [dirStep]
  rw [addParents_factor (normDir d) st]
  by_cases h : normDir d ∈ (addParents (normDir d) { patterns := [], seen := st.seen }).seen <;>
    simp [h, List.append_assoc]

theorem fileStep_factor (st : BuildSt) (f : PyStr) :
    fileStep st f =
      { patterns := st.patterns ++ (fileStep { patterns := [], seen := st.seen } f).patterns
        seen := (fileStep { patterns := [], seen := st.seen } f).seen } := by
  simp only [fileStep]
  rw [addParents_factor f st]
  simp [List.append_assoc]

theorem foldl_append_factor {α : Type} (g : α → List PyStr) :
    ∀ (l : List α) (ps : List PyStr),
      l.foldl (fun a x => a ++ g x) ps = ps ++ l.foldl (fun a x => a ++ g x) [] := by
  intro l
  induction l with
  | nil => intro ps; simp
  | cons x xs ih =>
    intro ps
    simp only [List.foldl_cons]
    rw [ih (ps ++ g x), ih ([] ++ g x)]
    simp [List.append_assoc]

/-- C1: the output of `build_rsync_patterns` is exactly the concatenation,
in order, of: the include rules for the included directories (ancestors
root-to-leaf then the directory, deduplicated through a running seen set),
the include rules for the included files (ancestors share the same seen
set, threaded out of the directory phase), the exclude rules for the
excluded directories (normalized to one trailing slash), the exclude rules
for the excluded files, and a final catch-all exclude present iff an
include list is nonempty. In particular, directories `["a/b/"]` alone
produce include rules for `a/` and `a/b/` plus the catch-all, and four
empty lists produce the empty list. -/
theorem build_rsync_patterns_sections :
    (∀ included_files included_dirs excluded_files excluded_dirs : List PyStr,
      build_rsync_patterns included_files included_dirs excluded_files excluded_dirs =
        (includeDirSection included_dirs []).patterns
        ++ (includeFileSection included_files (includeDirSection included_dirs []).seen).patterns
        ++ excludeDirSection excluded_dirs
        ++ excludeFileSection excluded_files
        ++ catchAllSection included_files included_dirs) ∧
    build_rsync_patterns [] [pystr "a/b/"] [] [] =
      [incFlag, pystr "a/", incFlag, pystr "a/b/", excFlag, pystr "*"] ∧
    build_rsync_patterns [] [] [] [] = [] := by
  refine ⟨?_, by decide, by decide⟩
  intro inF inD exF exD
  simp only [build_rsync_patterns]
  rw [foldl_patterns_factor fileStep fileStep_factor inF (inD.foldl dirStep
    { patterns := [], seen := [] })]
  rw [foldl_append_factor (fun d => [excFlag, normDir d]) exD]
  rw [foldl_append_factor (fun f => [excFlag, f]) exF]
  unfold includeDirSection includeFileSection excludeDirSection excludeFileSection
    catchAllSection
  by_cases h : inF ≠ [] ∨ inD ≠ [] <;> simp [h, List.append_assoc]

/-- C4: `get_next_run_time` returns the resolved last-run time plus the
fixed per-kind offset (`none` for an unknown or corrupt spec, and for a
missing spec), and in particular Hourly at a given time T yields exactly
T + one hour. -/
theorem get_next_run_time_spec :
    (∀ (strp : PyStr → Option Int) (now : Int) (d : Option IntervalDict)
        (lr : LastRunArg),
      get_next_run_time strp now d lr =
        (d.bind offsetMinutes).map (fun off => resolveLastRun strp now lr + off)) ∧
    (∀ (strp : PyStr → Option Int) (now T : Int),
      get_next_run_time strp now (some (.fixed (pystr "hourly"))) (.dt T) =
        some (T + 60)) := by
  constructor
  · intro strp now d lr
    cases d with
    | none => rfl
    | some d =>
      have hres : (match lr with
          | .noArg => now
          | .dt t => t
          | .text s => match strp s with | some t => t | none => now) =
          resolveLastRun strp now lr := by
        cases lr with
        | noArg => rfl
        | dt t => rfl
        | text s => cases strp s <;> rfl
      cases d with
      | fixed t =>
        simp only [get_next_run_time, offsetMinutes, hres, Option.some_bind]
        split_ifs <;> rfl
      | custom v u =>
        simp only [get_next_run_time, offsetMinutes, hres, Option.some_bind]
        split_ifs <;> rfl
  · intro strp now T
    rfl

/-- C5 counterexample: `is_due` does not return a boolean on every input —
on "custom:abc:days" the inner parse raises and the exception escapes. -/
theorem is_due_raises_on_bad_custom :
    is_due (fun _ => none) 0 (pystr "custom:abc:days") .noArg =
      .error .valueError := by decide

/-- C5 (amended): on every interval string whose parse does not raise,
`is_due` returns false when the string parses to null or when the next run
time is null, and otherwise returns true iff the current time has reached
the next run time. (The embedding is a pure function: no state mutated.) -/
theorem is_due_spec (strp : PyStr → Option Int) (now : Int) (s : PyStr)
    (lr : LastRunArg) (r : Option IntervalDict)
    (h : parse_interval s = .ok r) :
    is_due strp now s lr =
      .ok (match r.bind (fun d => get_next_run_time strp now (some d) lr) with
        | none => false
        | some t => decide (t ≤ now)) := by
  unfold is_due
  rw [h]
  cases r with
  | none => rfl
  | some d =>
    simp only [Option.some_bind]
    cases get_next_run_time strp now (some d) lr <;> rfl

/-- Witness for C5 at "daily" with a last run 25 hours in the past. -/
theorem is_due_spec_witness :
    parse_interval (pystr "daily") = .ok (some (.fixed (pystr "daily"))) ∧
      is_due (fun _ => none) 1500 (pystr "daily") (.dt 0) =
        .ok (match (some (.fixed (pystr "daily"))).bind
              (fun d => get_next_run_time (fun _ => none) 1500 (some d) (.dt 0)) with
          | none => false
          | some t => decide (t ≤ 1500)) :=
  ⟨by decide,
    is_due_spec (fun _ => none) 1500 (pystr "daily") (.dt 0)
      (some (.fixed (pystr "daily"))) (by decide)⟩

/-! ## Backup planner claims -/

/-- C6: `prep_sync_backup` produces exactly the result of
`prep_rsync_backup` on the same arguments with `delete_extra` forced true;
equivalently, the command vector with the delete flag is the command
vector without it, with `--delete` inserted after the optional progress
flag. -/
theorem prep_sync_is_plain_with_delete :
    (∀ (env : PrepEnv) (n s d : PyStr) (exF exD inF inD : List PyStr) (dr sp rp : Bool),
      prep_sync_backup env n s d exF exD inF inD dr sp rp =
        prep_rsync_backup env n s d exF exD inF inD dr sp true rp) ∧
    (∀ (abspath : PyStr → PyStr) (s d : PyStr) (inF inD exF exD : List PyStr)
        (dr sp : Bool),
      generate_rsync_command abspath s d inF inD exF exD dr sp true =
        cmdFront dr sp ++ [pystr "--delete"] ++ cmdBack abspath s d inF inD exF exD ∧
      generate_rsync_command abspath s d inF inD exF exD dr sp false =
        cmdFront dr sp ++ cmdBack abspath s d inF inD exF exD) := by
  constructor
  · intro env n s d exF exD inF inD dr sp rp
    rfl
  · intro abspath s d inF inD exF exD dr sp
    constructor <;>
      simp [generate_rsync_command, cmdFront, cmdBack, List.append_assoc]

/-- C7: the incremental command contains the link-dest segment
(`--link-dest` plus the absolute previous path) iff a previous destination
is supplied and exists on disk; when it is absent or nonexistent, the
segment is empty and the call still returns a plan — nothing is raised or
recorded. The hypothesis `pathExists [] = false` records that
`os.path.exists("")` is false, which collapses the source's truthiness
test on the path into the existence test. -/
theorem prep_incremental_link_dest
    (env : PrepEnv) (n s d : PyStr) (exF exD inF inD : List PyStr)
    (dr sp rp : Bool) (hne : env.pathExists [] = false) :
    ∀ prev : Option PyStr,
      (prep_incremental_backup env n s d exF exD inF inD prev dr sp rp).2.cmd =
        cmdFront dr sp
          ++ (match prev with
              | some p =>
                if env.pathExists p then [pystr "--link-dest", env.abspath p] else []
              | none => [])
          ++ incCmdBack env n s d inF inD exF exD := by
  intro prev
  cases prev with
  | none => simp [prep_incremental_backup, cmdFront, incCmdBack, List.append_assoc]
  | some p =>
    by_cases hp : env.pathExists p = true
    · have hpne : p ≠ [] := by
        intro he; subst he; rw [hne] at hp; exact Bool.noConfusion hp
      simp [prep_incremental_backup, cmdFront, incCmdBack, hp, hpne, List.append_assoc]
    · simp [prep_incremental_backup, cmdFront, incCmdBack, hp, List.append_assoc]

/-- Witness for C7: a supplied previous path that does not exist yields a
command whose link-dest segment is empty. -/
theorem prep_incremental_link_dest_witness :
    sampleEnv.pathExists [] = false ∧
      (prep_incremental_backup sampleEnv (pystr "b") (pystr "/s") (pystr "/d")
          [] [] [] [] (some (pystr "/old")) false false false).2.cmd =
        cmdFront false false
          ++ (match some (pystr "/old") with
              | some p =>
                if sampleEnv.pathExists p then [pystr "--link-dest", sampleEnv.abspath p]
                else []
              | none => [])
          ++ incCmdBack sampleEnv (pystr "b") (pystr "/s") (pystr "/d") [] [] [] [] :=
  ⟨rfl,
    prep_incremental_link_dest sampleEnv (pystr "b") (pystr "/s") (pystr "/d")
      [] [] [] [] false false false rfl (some (pystr "/old"))⟩

/-- C8: with the archived count set strictly below the pre-flight count
and a successful write, `finish_rsync_backup` appends exactly one warning
entry, citing both counts, to the error list (and raises nothing), and the
record is still appended to the history and persisted. -/
theorem finish_shortfall_warning (st : RBState) (archived : Int)
    (errors0 : List ErrEntry) (db0 : List BackupRecord)
    (desc m mo : PyStr) (pb : Option PyStr)
    (hlt : archived < st.num_files) :
    finish_rsync_backup none st archived errors0 db0 desc m mo pb =
      { errors := errors0 ++ [(shortfallWarning archived st.num_files, none)]
        db_list := db0 ++ [finishRecord st desc m mo pb]
        written := some (db0 ++ [finishRecord st desc m mo pb]) } := by
  simp [finish_rsync_backup, hlt]

/-- Witness for C8: archived = numFiles − 3 (7 of 10) appends exactly the
shortfall warning and still writes the record. -/
theorem finish_shortfall_warning_witness :
    (7 : Int) < sampleState.num_files ∧
      finish_rsync_backup none sampleState 7 [] [] (pystr "") (pystr "rsync")
          (pystr "backup") none =
        { errors := [] ++ [(shortfallWarning 7 sampleState.num_files, none)]
          db_list := [] ++ [finishRecord sampleState (pystr "") (pystr "rsync")
            (pystr "backup") none]
          written := some ([] ++ [finishRecord sampleState (pystr "") (pystr "rsync")
            (pystr "backup") none]) } :=
  ⟨by decide,
    finish_shortfall_warning sampleState 7 [] [] (pystr "") (pystr "rsync")
      (pystr "backup") none (by decide)⟩

/-- C9: if the persistence step raises, the exception is caught locally,
its description is appended to the caller-visible error list, the
shortfall check still runs, the record is still in the in-memory list, and
the call returns normally (nothing propagates). -/
theorem finish_persistence_failure (e : PyError) (st : RBState) (archived : Int)
    (errors0 : List ErrEntry) (db0 : List BackupRecord)
    (desc m mo : PyStr) (pb : Option PyStr) :
    finish_rsync_backup (some e) st archived errors0 db0 desc m mo pb =
      { errors := errors0 ++ [(pyErrMsg e, none)]
          ++ (if archived < st.num_files
              then [(shortfallWarning archived st.num_files, none)] else [])
        db_list := db0 ++ [finishRecord st desc m mo pb]
        written := none } := by
  simp [finish_rsync_backup, List.append_assoc]

/-! ## Sanity checks on concrete inputs -/

example : pyInt (pystr " -1_0 ") = some (-10) := by decide
example : pyInt (pystr "1__0") = none := by decide
example : parse_interval (pystr "custom:2:weeks") =
    .ok (some (.custom 2 (pystr "weeks"))) := by decide
example : format_interval (some (.custom 2 (pystr "weeks"))) = pystr "custom:2:weeks" := by
  decide
example : parse_interval (pystr "bogus") = .ok none := by decide
example : is_due (fun _ => none) 10000 (pystr "daily") (.dt 0) = .ok true := by decide
example : is_due (fun _ => none) 1000 (pystr "daily") (.dt 0) = .ok false := by decide
example : build_rsync_patterns [] [] [pystr "x.txt"] [] = [excFlag, pystr "x.txt"] := by
  decide
example : build_rsync_patterns [pystr "a/c.txt"] [pystr "a/b/"] [] [] =
    [incFlag, pystr "a/", incFlag, pystr "a/b/", incFlag, pystr "a/c.txt",
     excFlag, pystr "*"] := by decide
